import Mathlib

/-!
# hermit: `app/sync_cmd.go` and `hermittest/envfixture.go`

A shallow embedding of the two source files.

* Go `string` values are Lean `String`s; the path functions work on the
  character list (the separator and the dot are ASCII, so byte-wise and
  character-wise processing agree).
* A Go `error` is `Option GoError` (`none` is `nil`); a `(T, error)` result is
  `Except GoError T`.
* Calls into packages that are not part of the two files (`state`, `manifest`,
  `hermit`, `ui`, `sources`, `cache`, the Go standard library's `os`,
  `ioutil`, `httptest`) are fields of a dependency record.  Each effectful call
  is a function from the world before the call to its result and the world
  after it.  Every embedded function also returns the log of the calls it
  made, in order, with their arguments and results.
-/

namespace Hermit

/-! ## Go standard library: `path/filepath` (Unix) and `strings` -/

/-- Unix `os.IsPathSeparator`. -/
def isPathSeparator (c : Char) : Bool := c == '/'

/-- The condition `r == n || os.IsPathSeparator(path[r])` of `filepath.Clean`,
on the unread rest of the path. -/
def atElemEnd : List Char → Bool
  | [] => true
  | c :: _ => isPathSeparator c

/-- The backtracking loop of `filepath.Clean`,
`for out.w > dotdot && !os.IsPathSeparator(out.index(out.w)) { out.w-- }`,
started at write index `w`; returns the final write index. -/
def backtrack (buf : List Char) (dotdot : Nat) : Nat → Nat
  | 0 => 0
  | w + 1 =>
    if dotdot < w + 1 && !isPathSeparator (buf.getD (w + 1) '/') then
      backtrack buf dotdot w
    else w + 1

/-- The main loop `for r < n { switch ... }` of `filepath.Clean`.  `path` is the
unread rest `path[r:]`, `out` the buffer written so far (`out.w` is its
length).  Every iteration reads at least one byte, so `fuel = len(path)`
iterations are enough. -/
def cleanLoop (rooted : Bool) : Nat → List Char → List Char → Nat → List Char
  | 0, _, out, _ => out
  | _ + 1, [], out, _ => out
  | fuel + 1, c :: r1, out, dotdot =>
    if isPathSeparator c then
      -- empty path element
      cleanLoop rooted fuel r1 out dotdot
    else if c == '.' && atElemEnd r1 then
      -- . element
      cleanLoop rooted fuel r1 out dotdot
    else if c == '.' && r1.head? == some '.' && atElemEnd r1.tail then
      -- .. element: remove to last separator
      if dotdot < out.length then
        cleanLoop rooted fuel r1.tail (out.take (backtrack out dotdot (out.length - 1))) dotdot
      else if !rooted then
        let out1 := if 0 < out.length then out ++ ['/'] else out
        let out2 := out1 ++ ['.', '.']
        cleanLoop rooted fuel r1.tail out2 out2.length
      else
        cleanLoop rooted fuel r1.tail out dotdot
    else
      -- real path element: add slash if needed, copy element
      let out1 :=
        if (rooted && out.length != 1) || (!rooted && out.length != 0) then out ++ ['/']
        else out
      cleanLoop rooted fuel ((c :: r1).dropWhile (fun x => !isPathSeparator x))
        (out1 ++ (c :: r1).takeWhile (fun x => !isPathSeparator x)) dotdot

/-- Unix `filepath.Clean` (no volume name, `FromSlash` is the identity). -/
def cleanChars (path : List Char) : List Char :=
  match path with
  | [] => ['.']
  | c :: rest =>
    let rooted := isPathSeparator c
    let r0 := if rooted then rest else c :: rest
    let out0 := if rooted then ['/'] else []
    let dotdot0 := if rooted then 1 else 0
    let out := cleanLoop rooted r0.length r0 out0 dotdot0
    if out.length == 0 then ['.'] else out

/-- Unix `filepath.Dir`: everything up to and including the last separator,
cleaned. -/
def dirChars (path : List Char) : List Char :=
  cleanChars (path.rdropWhile (fun x => !isPathSeparator x))

/-- Unix `filepath.Base`. -/
def baseChars (path : List Char) : List Char :=
  if path = [] then ['.']
  else
    -- strip trailing slashes
    let p1 := path.rdropWhile isPathSeparator
    -- find the last element
    let p2 := p1.rtakeWhile (fun x => !isPathSeparator x)
    -- if empty now, it had only slashes
    if p2 = [] then ['/'] else p2

/-- Go `filepath.Dir`. -/
def filepath.Dir (path : String) : String := ⟨dirChars path.data⟩

/-- Go `filepath.Base`. -/
def filepath.Base (path : String) : String := ⟨baseChars path.data⟩

/-- Go `strings.HasPrefix`. -/
def strings.HasPrefix (s pre : String) : Bool := pre.data.isPrefixOf s.data

/-! ## Errors -/

/-- A non-nil Go `error` value.  `base` is an error produced by one of the
called components, named by its kind; `withStack` is the wrapper that
`errors.WithStack` of `github.com/pkg/errors` puts around a non-nil error. -/
inductive GoError where
  | base (kind : String)
  | withStack (inner : GoError)
deriving DecidableEq, Repr

/-- The function `errors.WithStack` on a non-nil error. -/
def errors.WithStack (err : GoError) : GoError := GoError.withStack err

/-- The function `errors.Cause`: unwraps every wrapper that has a `Cause()`
method. -/
def errors.Cause : GoError → GoError
  | GoError.base k => GoError.base k
  | GoError.withStack e => errors.Cause e

/-! ## `app/sync_cmd.go` -/

section SyncCmd

variable {σ Env Srcs Ref Sel Pkg Task : Type}

/-- What `syncCmd.Run` calls.  `stateSources`, `stateResolve` and
`stateUpgradeChannel` are the methods of the `state` argument, `envSync` the
method `Sync` of a non-nil `env`, `srcsSync` the method `Sync` of the sources
that `state.Sources` returned, `uiTask` the method `Task` of the `l`
argument. -/
structure SyncDeps (σ Env Srcs Ref Sel Pkg Task : Type) where
  osExecutable : σ → Except GoError String × σ
  stateSources : σ → Except GoError Srcs × σ
  envSync : Env → Bool → σ → Option GoError × σ
  srcsSync : Srcs → Bool → σ → Option GoError × σ
  parseReference : String → Ref
  exactSelector : Ref → Sel
  stateResolve : Sel → σ → Except GoError Pkg × σ
  uiTask : String → Task
  stateUpgradeChannel : Task → Pkg → σ → Option GoError × σ

/-- One call made by `syncCmd.Run`, with its arguments and what it returned. -/
inductive SyncCall (Env Srcs Sel Pkg Task : Type) where
  | osExecutable (res : Except GoError String)
  | stateSources (res : Except GoError Srcs)
  | envSync (env : Env) (force : Bool) (res : Option GoError)
  | srcsSync (srcs : Srcs) (force : Bool) (res : Option GoError)
  | stateResolve (sel : Sel) (res : Except GoError Pkg)
  | stateUpgradeChannel (task : Task) (pkg : Pkg) (res : Option GoError)

/-- The error of a `(T, error)` result. -/
def exceptErr {α : Type} : Except GoError α → Option GoError
  | Except.ok _ => none
  | Except.error e => some e

namespace SyncCall

/-- The error a call returned (`none` when it returned nil). -/
def err : SyncCall Env Srcs Sel Pkg Task → Option GoError
  | osExecutable res => exceptErr res
  | stateSources res => exceptErr res
  | envSync _ _ res => res
  | srcsSync _ _ res => res
  | stateResolve _ res => exceptErr res
  | stateUpgradeChannel _ _ res => res

/-- Whether the call is a `Sync`, on the environment or on the sources. -/
def isSync : SyncCall Env Srcs Sel Pkg Task → Bool
  | envSync _ _ _ => true
  | srcsSync _ _ _ => true
  | _ => false

/-- Whether the call is a `Sync` with `force = true`. -/
def isForcedSync : SyncCall Env Srcs Sel Pkg Task → Bool
  | envSync _ force _ => force
  | srcsSync _ force _ => force
  | _ => false

/-- Whether the call is `state.Resolve`. -/
def isResolve : SyncCall Env Srcs Sel Pkg Task → Bool
  | stateResolve _ _ => true
  | _ => false

/-- Whether the call is `state.UpgradeChannel`. -/
def isUpgradeChannel : SyncCall Env Srcs Sel Pkg Task → Bool
  | stateUpgradeChannel _ _ _ => true
  | _ => false

/-- The position of the call in the body of `syncCmd.Run`. -/
def rank : SyncCall Env Srcs Sel Pkg Task → Nat
  | osExecutable _ => 0
  | stateSources _ => 1
  | envSync _ _ _ => 2
  | srcsSync _ _ _ => 2
  | stateResolve _ _ => 3
  | stateUpgradeChannel _ _ _ => 4

end SyncCall

/-- What a run of `syncCmd.Run` leaves behind: the returned `error`, the calls
made, and the world after the run. -/
structure SyncRun (σ Env Srcs Sel Pkg Task : Type) where
  err : Option GoError
  calls : List (SyncCall Env Srcs Sel Pkg Task)
  world : σ

/-- Lines 28-32 of `syncCmd.Run`: sync sources from either the env or the
default sources. -/
def syncSources (d : SyncDeps σ Env Srcs Ref Sel Pkg Task) (env : Option Env) (srcs : Srcs)
    (w : σ) : SyncCall Env Srcs Sel Pkg Task × Option GoError × σ :=
  match env with
  | some e =>
    let r := d.envSync e true w
    (SyncCall.envSync e true r.1, r.1, r.2)
  | none =>
    let r := d.srcsSync srcs true w
    (SyncCall.srcsSync srcs true r.1, r.1, r.2)

/-- The method `(*syncCmd).Run(l, env, state)`.  `env` is `none` for a nil
`*hermit.Env`. -/
def syncCmd.Run (d : SyncDeps σ Env Srcs Ref Sel Pkg Task) (env : Option Env) (w : σ) :
    SyncRun σ Env Srcs Sel Pkg Task :=
  match d.osExecutable w with
  | (Except.error err, w1) =>
    ⟨some (errors.WithStack err), [SyncCall.osExecutable (Except.error err)], w1⟩
  | (Except.ok self, w1) =>
    let c1 : SyncCall Env Srcs Sel Pkg Task := SyncCall.osExecutable (Except.ok self)
    match d.stateSources w1 with
    | (Except.error err, w2) =>
      ⟨some (errors.WithStack err), [c1, SyncCall.stateSources (Except.error err)], w2⟩
    | (Except.ok srcs, w2) =>
      let c2 : SyncCall Env Srcs Sel Pkg Task := SyncCall.stateSources (Except.ok srcs)
      match syncSources d env srcs w2 with
      | (c3, some err, w3) => ⟨some (errors.WithStack err), [c1, c2, c3], w3⟩
      | (c3, none, w3) =>
        -- Upgrade hermit if necessary
        let pkgRef := filepath.Base (filepath.Dir self)
        if strings.HasPrefix pkgRef "hermit@" then
          let sel := d.exactSelector (d.parseReference pkgRef)
          match d.stateResolve sel w3 with
          | (Except.error err, w4) =>
            ⟨some (errors.WithStack err),
              [c1, c2, c3, SyncCall.stateResolve sel (Except.error err)], w4⟩
          | (Except.ok pkg, w4) =>
            let c4 : SyncCall Env Srcs Sel Pkg Task := SyncCall.stateResolve sel (Except.ok pkg)
            match d.stateUpgradeChannel (d.uiTask pkgRef) pkg w4 with
            | (some err, w5) =>
              ⟨some (errors.WithStack err),
                [c1, c2, c3, c4, SyncCall.stateUpgradeChannel (d.uiTask pkgRef) pkg (some err)], w5⟩
            | (none, w5) =>
              ⟨none, [c1, c2, c3, c4, SyncCall.stateUpgradeChannel (d.uiTask pkgRef) pkg none], w5⟩
        else
          ⟨none, [c1, c2, c3], w3⟩

end SyncCmd

/-! ## `hermittest/envfixture.go` -/

section Fixture

variable {σ S E U B Srv Cl Ca Src H T : Type}

/-- What the fixture calls: `ioutil.TempDir`, `ui.NewForTesting`, `hermit.Init`,
`httptest.NewServer`, `(*httptest.Server).Client`, `cache.Open`, `state.Open`,
`hermit.OpenEnv`, `(*state.State).Root`, `sources.NewMemSource`,
`(*hermit.Env).AddSource`, `os.RemoveAll` and `(*httptest.Server).Close`.
Arguments that are the same constant at every call site (`hermit.Config{}`,
the `state.Config` literal, `envars.Envars{}`, the nil second argument of
`cache.Open`) are left out. -/
structure FixtureDeps (σ S E U B Srv Cl Ca Src H : Type) where
  tempDir : String → String → σ → Except GoError String × σ
  newForTesting : σ → (U × B) × σ
  hermitInit : U → String → String → String → σ → Option GoError × σ
  newServer : H → σ → Srv × σ
  serverClient : Srv → Cl
  cacheOpen : String → Cl → Cl → σ → Except GoError Ca × σ
  stateOpen : String → Ca → σ → Except GoError S × σ
  openEnv : String → S → Cl → σ → Except GoError E × σ
  stateRoot : S → String
  newMemSource : String → String → Src
  addSource : E → U → Src → σ → Option GoError × σ
  removeAll : String → σ → Option GoError × σ
  serverClose : Srv → σ → σ

/-- One effectful call made by the fixture, with its arguments and what it
returned. -/
inductive FixtureCall (S E U B Srv Cl Ca Src H : Type) where
  | tempDir (dir pattern : String) (res : Except GoError String)
  | newForTesting (log : U) (buf : B)
  | hermitInit (log : U) (envDir userStateDir stateDir : String) (res : Option GoError)
  | newServer (handler : H) (server : Srv)
  | cacheOpen (stateDir : String) (client fastFailClient : Cl) (res : Except GoError Ca)
  | stateOpen (stateDir : String) (cache : Ca) (res : Except GoError S)
  | openEnv (envDir : String) (sta : S) (client : Cl) (res : Except GoError E)
  | addSource (env : E) (l : U) (src : Src) (res : Option GoError)
  | removeAll (dir : String) (res : Option GoError)
  | serverClose (server : Srv)

/-- The directories handed to `os.RemoveAll` in a log of calls, in order. -/
def removedDirs : List (FixtureCall S E U B Srv Cl Ca Src H) → List String
  | [] => []
  | FixtureCall.removeAll dir _ :: rest => dir :: removedDirs rest
  | _ :: rest => removedDirs rest

/-- How a function of the fixture ends: it returns a value, or a
`require.NoError` saw the non-nil error `err` and stopped the test
(`t.FailNow`). -/
inductive TestResult (α : Type) where
  | returned (a : α)
  | failNow (err : GoError)

/-- The struct `EnvTestFixture`. -/
structure EnvTestFixture (S E U B Srv T : Type) where
  State : S
  EnvDirs : List String
  Env : E
  Logs : B
  Server : Srv
  P : U
  t : T

/-- What a call of a fixture function leaves behind: how it ended, the calls
made, and the world after it. -/
structure TestRun (σ S E U B Srv Cl Ca Src H α : Type) where
  result : TestResult α
  calls : List (FixtureCall S E U B Srv Cl Ca Src H)
  world : σ

/-- What a call of a method of `*EnvTestFixture` leaves behind: as `TestRun`,
and the fields of the receiver after the call. -/
structure MethodRun (σ S E U B Srv Cl Ca Src H T α : Type) extends
    TestRun σ S E U B Srv Cl Ca Src H α where
  fixture : EnvTestFixture S E U B Srv T

/-- The function `NewEnvTestFixture(t, handler)`. -/
def NewEnvTestFixture (d : FixtureDeps σ S E U B Srv Cl Ca Src H) (t : T) (handler : H)
    (w : σ) : TestRun σ S E U B Srv Cl Ca Src H (EnvTestFixture S E U B Srv T) :=
  match d.tempDir "" "" w with
  | (Except.error err, w1) =>
    ⟨TestResult.failNow err, [FixtureCall.tempDir "" "" (Except.error err)], w1⟩
  | (Except.ok envDir, w1) =>
    let c1 : FixtureCall S E U B Srv Cl Ca Src H := FixtureCall.tempDir "" "" (Except.ok envDir)
    match d.tempDir "" "" w1 with
    | (Except.error err, w2) =>
      ⟨TestResult.failNow err, [c1, FixtureCall.tempDir "" "" (Except.error err)], w2⟩
    | (Except.ok stateDir, w2) =>
      let c2 : FixtureCall S E U B Srv Cl Ca Src H :=
        FixtureCall.tempDir "" "" (Except.ok stateDir)
      match d.newForTesting w2 with
      | ((log, buf), w3) =>
        let c3 : FixtureCall S E U B Srv Cl Ca Src H := FixtureCall.newForTesting log buf
        match d.hermitInit log envDir "" stateDir w3 with
        | (some err, w4) =>
          ⟨TestResult.failNow err,
            [c1, c2, c3, FixtureCall.hermitInit log envDir "" stateDir (some err)], w4⟩
        | (none, w4) =>
          let c4 : FixtureCall S E U B Srv Cl Ca Src H :=
            FixtureCall.hermitInit log envDir "" stateDir none
          match d.newServer handler w4 with
          | (server, w5) =>
            let c5 : FixtureCall S E U B Srv Cl Ca Src H := FixtureCall.newServer handler server
            let client := d.serverClient server
            match d.cacheOpen stateDir client client w5 with
            | (Except.error err, w6) =>
              ⟨TestResult.failNow err,
                [c1, c2, c3, c4, c5,
                  FixtureCall.cacheOpen stateDir client client (Except.error err)], w6⟩
            | (Except.ok cache, w6) =>
              let c6 : FixtureCall S E U B Srv Cl Ca Src H :=
                FixtureCall.cacheOpen stateDir client client (Except.ok cache)
              match d.stateOpen stateDir cache w6 with
              | (Except.error err, w7) =>
                ⟨TestResult.failNow err,
                  [c1, c2, c3, c4, c5, c6,
                    FixtureCall.stateOpen stateDir cache (Except.error err)], w7⟩
              | (Except.ok sta, w7) =>
                let c7 : FixtureCall S E U B Srv Cl Ca Src H :=
                  FixtureCall.stateOpen stateDir cache (Except.ok sta)
                match d.openEnv envDir sta (d.serverClient server) w7 with
                | (Except.error err, w8) =>
                  ⟨TestResult.failNow err,
                    [c1, c2, c3, c4, c5, c6, c7,
                      FixtureCall.openEnv envDir sta (d.serverClient server) (Except.error err)],
                    w8⟩
                | (Except.ok env, w8) =>
                  ⟨TestResult.returned
                      { State := sta, EnvDirs := [envDir], Logs := buf, Env := env,
                        Server := server, t := t, P := log },
                    [c1, c2, c3, c4, c5, c6, c7,
                      FixtureCall.openEnv envDir sta (d.serverClient server) (Except.ok env)],
                    w8⟩

/-- The loop `for _, dir := range f.EnvDirs { os.RemoveAll(dir) }` of `Clean`;
the error that `os.RemoveAll` returns is dropped. -/
def cleanEnvDirs (d : FixtureDeps σ S E U B Srv Cl Ca Src H) :
    List String → σ → List (FixtureCall S E U B Srv Cl Ca Src H) × σ
  | [], w => ([], w)
  | dir :: rest, w =>
    let r := d.removeAll dir w
    let k := cleanEnvDirs d rest r.2
    (FixtureCall.removeAll dir r.1 :: k.1, k.2)

/-- The method `(*EnvTestFixture).Clean()`. -/
def EnvTestFixture.Clean (d : FixtureDeps σ S E U B Srv Cl Ca Src H)
    (f : EnvTestFixture S E U B Srv T) (w : σ) :
    MethodRun σ S E U B Srv Cl Ca Src H T Unit :=
  let k := cleanEnvDirs d f.EnvDirs w
  let r := d.removeAll (d.stateRoot f.State) k.2
  let w3 := d.serverClose f.Server r.2
  { result := TestResult.returned (),
    calls := k.1 ++ [FixtureCall.removeAll (d.stateRoot f.State) r.1,
      FixtureCall.serverClose f.Server],
    world := w3,
    fixture := f }

/-- The method `(*EnvTestFixture).NewEnv()`. -/
def EnvTestFixture.NewEnv (d : FixtureDeps σ S E U B Srv Cl Ca Src H)
    (f : EnvTestFixture S E U B Srv T) (w : σ) :
    MethodRun σ S E U B Srv Cl Ca Src H T E :=
  match d.tempDir "" "" w with
  | (Except.error err, w1) =>
    { result := TestResult.failNow err,
      calls := [FixtureCall.tempDir "" "" (Except.error err)], world := w1, fixture := f }
  | (Except.ok envDir, w1) =>
    let c1 : FixtureCall S E U B Srv Cl Ca Src H := FixtureCall.tempDir "" "" (Except.ok envDir)
    match d.newForTesting w1 with
    | ((log, buf), w2) =>
      let c2 : FixtureCall S E U B Srv Cl Ca Src H := FixtureCall.newForTesting log buf
      match d.hermitInit log envDir "" (d.stateRoot f.State) w2 with
      | (some err, w3) =>
        { result := TestResult.failNow err,
          calls := [c1, c2,
            FixtureCall.hermitInit log envDir "" (d.stateRoot f.State) (some err)],
          world := w3, fixture := f }
      | (none, w3) =>
        let c3 : FixtureCall S E U B Srv Cl Ca Src H :=
          FixtureCall.hermitInit log envDir "" (d.stateRoot f.State) none
        match d.openEnv envDir f.State (d.serverClient f.Server) w3 with
        | (Except.error err, w4) =>
          { result := TestResult.failNow err,
            calls := [c1, c2, c3,
              FixtureCall.openEnv envDir f.State (d.serverClient f.Server) (Except.error err)],
            world := w4, fixture := f }
        | (Except.ok env, w4) =>
          { result := TestResult.returned env,
            calls := [c1, c2, c3,
              FixtureCall.openEnv envDir f.State (d.serverClient f.Server) (Except.ok env)],
            world := w4, fixture := f }

/-- The loop of `WithManifests` over the entries of `files`, given in the order
in which `range` visits them (Go leaves that order unspecified): one
`AddSource` per entry, stopping at the first error. -/
def withManifestsLoop (d : FixtureDeps σ S E U B Srv Cl Ca Src H)
    (f : EnvTestFixture S E U B Srv T) :
    List (String × String) → σ →
      TestResult Unit × List (FixtureCall S E U B Srv Cl Ca Src H) × σ
  | [], w => (TestResult.returned (), [], w)
  | (name, content) :: rest, w =>
    match d.addSource f.Env f.P (d.newMemSource name content) w with
    | (some err, w1) =>
      (TestResult.failNow err,
        [FixtureCall.addSource f.Env f.P (d.newMemSource name content) (some err)], w1)
    | (none, w1) =>
      let k := withManifestsLoop d f rest w1
      (k.1, FixtureCall.addSource f.Env f.P (d.newMemSource name content) none :: k.2.1, k.2.2)

/-- The method `(*EnvTestFixture).WithManifests(files)`.  The returned pointer
is the receiver, so the returned value is the receiver's value. -/
def EnvTestFixture.WithManifests (d : FixtureDeps σ S E U B Srv Cl Ca Src H)
    (f : EnvTestFixture S E U B Srv T) (files : List (String × String)) (w : σ) :
    MethodRun σ S E U B Srv Cl Ca Src H T (EnvTestFixture S E U B Srv T) :=
  match withManifestsLoop d f files w with
  | (TestResult.failNow err, calls, w1) =>
    { result := TestResult.failNow err, calls := calls, world := w1, fixture := f }
  | (TestResult.returned _, calls, w1) =>
    { result := TestResult.returned f, calls := calls, world := w1, fixture := f }

end Fixture

/-! ## Example worlds -/

/-- An example world for `syncCmd.Run`: the executable is at `self`,
`state.Sources` succeeds, and the sync, `state.Resolve` and
`state.UpgradeChannel` return the given errors (`none` for success).  The world
is the number of calls made so far; references, selectors, packages and tasks
are strings. -/
def exampleSyncDeps (self : String) (syncErr resolveErr upgradeErr : Option GoError) :
    SyncDeps Nat String String String String String String where
  osExecutable w := (Except.ok self, w + 1)
  stateSources w := (Except.ok "default", w + 1)
  envSync _ _ w := (syncErr, w + 1)
  srcsSync _ _ w := (syncErr, w + 1)
  parseReference s := s
  exactSelector r := r
  stateResolve sel w :=
    (match resolveErr with
      | none => Except.ok ("pkg:" ++ sel)
      | some e => Except.error e, w + 1)
  uiTask s := s
  stateUpgradeChannel _ _ w := (upgradeErr, w + 1)

/-- An example world for the fixture: the world is the list of directory names
that `ioutil.TempDir` will hand out next; a state is its root directory, an
environment its directory and its state, a cache its directory, a source its
name and content; `AddSource` fails on the source named `badSource`. -/
def exampleFixtureDeps (badSource : String) :
    FixtureDeps (List String) String (String × String) Unit Unit Unit Unit String
      (String × String) Unit where
  tempDir _ _ w :=
    match w with
    | [] => (Except.error (GoError.base "no space left on device"), [])
    | dir :: rest => (Except.ok dir, rest)
  newForTesting w := (((), ()), w)
  hermitInit _ _ _ _ w := (none, w)
  newServer _ w := ((), w)
  serverClient _ := ()
  cacheOpen dir _ _ w := (Except.ok dir, w)
  stateOpen dir _ w := (Except.ok dir, w)
  openEnv envDir sta _ w := (Except.ok (envDir, sta), w)
  stateRoot s := s
  newMemSource name content := (name, content)
  addSource _ _ src w :=
    (if src.1 = badSource then some (GoError.base "bad manifest") else none, w)
  removeAll _ w := (none, w)
  serverClose _ w := w

/-- The fixture that `NewEnvTestFixture` returns in the example world
`["/tmp/env", "/tmp/state"]`. -/
def exampleFixture : EnvTestFixture String (String × String) Unit Unit Unit Unit :=
  { State := "/tmp/state", EnvDirs := ["/tmp/env"], Env := ("/tmp/env", "/tmp/state"),
    Logs := (), Server := (), P := (), t := () }

/-! ## The path model: the fuel of `cleanLoop` is enough -/

/-- Once the fuel covers the unread rest of the path, more fuel changes
nothing: `cleanLoop` never stops for lack of fuel when started, as `cleanChars`
does, with the length of the path. -/
theorem cleanLoop_fuel (rooted : Bool) (n m : Nat) (path out : List Char) (dotdot : Nat)
    (hn : path.length ≤ n) (hm : path.length ≤ m) :
    cleanLoop rooted n path out dotdot = cleanLoop rooted m path out dotdot := by
  induction n generalizing m path out dotdot with
  | zero =>
    have hp : path = [] := List.length_eq_zero.mp (Nat.le_zero.mp hn)
    subst hp
    cases m <;> rfl
  | succ n ih =>
    cases path with
    | nil => cases m <;> rfl
    | cons c r1 =>
      cases m with
      | zero => simp at hm
      | succ m =>
        have h1 : r1.length ≤ n := by simpa using hn
        have h1m : r1.length ≤ m := by simpa using hm
        have ht : r1.tail.length ≤ n := by simp; omega
        have htm : r1.tail.length ≤ m := by simp; omega
        have hd : ∀ k, r1.length ≤ k → isPathSeparator c = false →
            ((c :: r1).dropWhile (fun x => !isPathSeparator x)).length ≤ k := by
          intro k hk hc
          have := (List.dropWhile_sublist (fun x => !isPathSeparator x) :
            List.Sublist (r1.dropWhile (fun x => !isPathSeparator x)) r1).length_le
          simp only [List.dropWhile_cons, hc, Bool.not_false, ite_true]
          omega
        simp only [cleanLoop]
        by_cases hc : isPathSeparator c = true
        · simp only [hc, ite_true]
          exact ih m r1 _ _ h1 h1m
        · have hc' : isPathSeparator c = false := by simpa using hc
          simp only [hc', Bool.false_eq_true, ite_false]
          split
          · exact ih m r1 _ _ h1 h1m
          · split
            · split
              · exact ih m _ _ _ ht htm
              · split
                · exact ih m _ _ _ ht htm
                · exact ih m _ _ _ ht htm
            · exact ih m _ _ _ (hd n h1 hc') (hd m h1m hc')

/-- The parent directory names used in the examples. -/
theorem example_pkgRefs :
    filepath.Base (filepath.Dir "/opt/hermit@stable/hermit") = "hermit@stable" ∧
    filepath.Base (filepath.Dir "/opt/hermit@1.0.0/hermit") = "hermit@1.0.0" ∧
    filepath.Base (filepath.Dir "/usr/local/bin/hermit") = "bin" ∧
    strings.HasPrefix "hermit@stable" "hermit@" = true ∧
    strings.HasPrefix "hermit@1.0.0" "hermit@" = true ∧
    strings.HasPrefix "bin" "hermit@" = false := by
  decide

/-! ## `syncCmd.Run` -/

section SyncCmdTheorems

variable {σ Env Srcs Ref Sel Pkg Task : Type}


/-- The call that `syncSources` logs is a forced sync, on the environment when
there is one and on the sources otherwise, and it carries the error that
`syncSources` hands back. -/
theorem syncSources_call (d : SyncDeps σ Env Srcs Ref Sel Pkg Task) (env : Option Env)
    (srcs : Srcs) (w : σ) :
    (syncSources d env srcs w).1.isForcedSync = true ∧
    (syncSources d env srcs w).1.isSync = true ∧
    (syncSources d env srcs w).1.isResolve = false ∧
    (syncSources d env srcs w).1.isUpgradeChannel = false ∧
    (syncSources d env srcs w).1.rank = 2 ∧
    (syncSources d env srcs w).1.err = (syncSources d env srcs w).2.1 ∧
    (∀ e, env = some e →
      (syncSources d env srcs w).1 = SyncCall.envSync e true (d.envSync e true w).1) ∧
    (env = none →
      (syncSources d env srcs w).1 = SyncCall.srcsSync srcs true (d.srcsSync srcs true w).1) := by
  cases env <;> simp [syncSources, SyncCall.isForcedSync, SyncCall.isSync, SyncCall.isResolve,
    SyncCall.isUpgradeChannel, SyncCall.rank, SyncCall.err]

/-- The seven ways through the body of `syncCmd.Run`. -/
theorem syncCmd.Run_cases (d : SyncDeps σ Env Srcs Ref Sel Pkg Task) (env : Option Env)
    (w : σ) :
    (∃ e w1, d.osExecutable w = (Except.error e, w1) ∧
      syncCmd.Run d env w =
        ⟨some (errors.WithStack e), [SyncCall.osExecutable (Except.error e)], w1⟩) ∨
    (∃ self w1 e w2, d.osExecutable w = (Except.ok self, w1) ∧
      d.stateSources w1 = (Except.error e, w2) ∧
      syncCmd.Run d env w =
        ⟨some (errors.WithStack e),
          [SyncCall.osExecutable (Except.ok self), SyncCall.stateSources (Except.error e)], w2⟩) ∨
    (∃ self w1 srcs w2 c3 e w3, d.osExecutable w = (Except.ok self, w1) ∧
      d.stateSources w1 = (Except.ok srcs, w2) ∧
      syncSources d env srcs w2 = (c3, some e, w3) ∧
      syncCmd.Run d env w =
        ⟨some (errors.WithStack e),
          [SyncCall.osExecutable (Except.ok self), SyncCall.stateSources (Except.ok srcs), c3],
          w3⟩) ∨
    (∃ self w1 srcs w2 c3 w3, d.osExecutable w = (Except.ok self, w1) ∧
      d.stateSources w1 = (Except.ok srcs, w2) ∧
      syncSources d env srcs w2 = (c3, none, w3) ∧
      strings.HasPrefix (filepath.Base (filepath.Dir self)) "hermit@" = false ∧
      syncCmd.Run d env w =
        ⟨none,
          [SyncCall.osExecutable (Except.ok self), SyncCall.stateSources (Except.ok srcs), c3],
          w3⟩) ∨
    (∃ self w1 srcs w2 c3 w3 e w4, d.osExecutable w = (Except.ok self, w1) ∧
      d.stateSources w1 = (Except.ok srcs, w2) ∧
      syncSources d env srcs w2 = (c3, none, w3) ∧
      strings.HasPrefix (filepath.Base (filepath.Dir self)) "hermit@" = true ∧
      d.stateResolve (d.exactSelector (d.parseReference (filepath.Base (filepath.Dir self)))) w3
        = (Except.error e, w4) ∧
      syncCmd.Run d env w =
        ⟨some (errors.WithStack e),
          [SyncCall.osExecutable (Except.ok self), SyncCall.stateSources (Except.ok srcs), c3,
            SyncCall.stateResolve
              (d.exactSelector (d.parseReference (filepath.Base (filepath.Dir self))))
              (Except.error e)],
          w4⟩) ∨
    (∃ self w1 srcs w2 c3 w3 pkg w4 res w5, d.osExecutable w = (Except.ok self, w1) ∧
      d.stateSources w1 = (Except.ok srcs, w2) ∧
      syncSources d env srcs w2 = (c3, none, w3) ∧
      strings.HasPrefix (filepath.Base (filepath.Dir self)) "hermit@" = true ∧
      d.stateResolve (d.exactSelector (d.parseReference (filepath.Base (filepath.Dir self)))) w3
        = (Except.ok pkg, w4) ∧
      d.stateUpgradeChannel (d.uiTask (filepath.Base (filepath.Dir self))) pkg w4 = (res, w5) ∧
      syncCmd.Run d env w =
        ⟨res.map errors.WithStack,
          [SyncCall.osExecutable (Except.ok self), SyncCall.stateSources (Except.ok srcs), c3,
            SyncCall.stateResolve
              (d.exactSelector (d.parseReference (filepath.Base (filepath.Dir self))))
              (Except.ok pkg),
            SyncCall.stateUpgradeChannel (d.uiTask (filepath.Base (filepath.Dir self))) pkg res],
          w5⟩) := by
  rcases h1 : d.osExecutable w with ⟨r1, w1⟩
  cases r1 with
  | error e => exact Or.inl ⟨e, w1, rfl, by simp [syncCmd.Run, h1]⟩
  | ok self =>
    refine Or.inr ?_
    rcases h2 : d.stateSources w1 with ⟨r2, w2⟩
    cases r2 with
    | error e => exact Or.inl ⟨self, w1, e, w2, rfl, h2, by simp [syncCmd.Run, h1, h2]⟩
    | ok srcs =>
      refine Or.inr ?_
      rcases h3 : syncSources d env srcs w2 with ⟨c3, r3, w3⟩
      cases r3 with
      | some e =>
        exact Or.inl ⟨self, w1, srcs, w2, c3, e, w3, rfl, h2, h3, by simp [syncCmd.Run, h1, h2, h3]⟩
      | none =>
        refine Or.inr ?_
        by_cases hp : strings.HasPrefix (filepath.Base (filepath.Dir self)) "hermit@" = true
        · refine Or.inr ?_
          rcases h4 : d.stateResolve
            (d.exactSelector (d.parseReference (filepath.Base (filepath.Dir self)))) w3
            with ⟨r4, w4⟩
          cases r4 with
          | error e =>
            exact Or.inl ⟨self, w1, srcs, w2, c3, w3, e, w4, rfl, h2, h3, hp, h4,
              by simp [syncCmd.Run, h1, h2, h3, hp, h4]⟩
          | ok pkg =>
            refine Or.inr ?_
            rcases h5 : d.stateUpgradeChannel (d.uiTask (filepath.Base (filepath.Dir self))) pkg w4
              with ⟨r5, w5⟩
            refine ⟨self, w1, srcs, w2, c3, w3, pkg, w4, r5, w5, rfl, h2, h3, hp, h4, h5, ?_⟩
            cases r5 <;> simp [syncCmd.Run, h1, h2, h3, hp, h4, h5]
        · exact Or.inl ⟨self, w1, srcs, w2, c3, w3, rfl, h2, h3, by simpa using hp,
            by simp [syncCmd.Run, h1, h2, h3, hp]⟩



/-- C1, as stated, fails: the executable is `/opt/hermit@stable/hermit`, the
executable lookup, `state.Sources` and the sync succeed (the first three calls
return no error), the parent directory name starts with `hermit@`, and
`state.Resolve` fails with `UnknownPackage`.  `Run` has invoked `state.Resolve`
but not `state.UpgradeChannel`, so "both are invoked" does not follow from the
directory name. -/
theorem syncCmd_Run_resolve_failure_skips_upgrade :
    (syncCmd.Run (exampleSyncDeps "/opt/hermit@stable/hermit" none
        (some (GoError.base "UnknownPackage")) none) (none : Option String) 0).calls.map
      SyncCall.err = [none, none, none, some (GoError.base "UnknownPackage")] ∧
    strings.HasPrefix (filepath.Base (filepath.Dir "/opt/hermit@stable/hermit")) "hermit@"
      = true ∧
    (syncCmd.Run (exampleSyncDeps "/opt/hermit@stable/hermit" none
        (some (GoError.base "UnknownPackage")) none) (none : Option String) 0).calls.any
      SyncCall.isResolve = true ∧
    (syncCmd.Run (exampleSyncDeps "/opt/hermit@stable/hermit" none
        (some (GoError.base "UnknownPackage")) none) (none : Option String) 0).calls.any
      SyncCall.isUpgradeChannel = false := by
  decide

/-- C1, amended: in a run of `syncCmd.Run` in which the executable lookup,
`state.Sources` and the sync succeed, `state.Resolve` is invoked if and only if
the base name of the executable's parent directory starts with `hermit@`, and
`state.UpgradeChannel` is invoked if and only if it does and that
`state.Resolve` call returned no error; when the name does not start with
`hermit@`, neither is invoked and `Run` returns nil.  Whether `state.Resolve`
is invoked is a function of the executable's path alone. -/
theorem syncCmd_Run_upgrade_trigger (d : SyncDeps σ Env Srcs Ref Sel Pkg Task)
    (env : Option Env) (w w1 w2 : σ) (self : String) (srcs : Srcs)
    (hexe : d.osExecutable w = (Except.ok self, w1))
    (hsrc : d.stateSources w1 = (Except.ok srcs, w2))
    (hsync : (syncSources d env srcs w2).2.1 = none) :
    ((syncCmd.Run d env w).calls.any SyncCall.isResolve =
      strings.HasPrefix (filepath.Base (filepath.Dir self)) "hermit@") ∧
    ((syncCmd.Run d env w).calls.any SyncCall.isUpgradeChannel =
      (strings.HasPrefix (filepath.Base (filepath.Dir self)) "hermit@" &&
        (exceptErr (d.stateResolve
          (d.exactSelector (d.parseReference (filepath.Base (filepath.Dir self))))
          (syncSources d env srcs w2).2.2).1).isNone)) ∧
    (strings.HasPrefix (filepath.Base (filepath.Dir self)) "hermit@" = false →
      (syncCmd.Run d env w).err = none) := by
  rcases syncCmd.Run_cases d env w with
    ⟨e, v1, h1, hr⟩ | ⟨s, v1, e, v2, h1, h2, hr⟩ | ⟨s, v1, ss, v2, c3, e, v3, h1, h2, h3, hr⟩ |
    ⟨s, v1, ss, v2, c3, v3, h1, h2, h3, hp, hr⟩ |
    ⟨s, v1, ss, v2, c3, v3, e, v4, h1, h2, h3, hp, h4, hr⟩ |
    ⟨s, v1, ss, v2, c3, v3, pkg, v4, res, v5, h1, h2, h3, hp, h4, h5, hr⟩
  all_goals
    simp only [hexe, Prod.mk.injEq, Except.ok.injEq, reduceCtorEq, false_and] at h1
  all_goals obtain ⟨rfl, rfl⟩ := h1
  all_goals simp only [hsrc, Prod.mk.injEq, Except.ok.injEq, reduceCtorEq, false_and] at h2
  all_goals obtain ⟨rfl, rfl⟩ := h2
  all_goals rw [h3] at hsync ⊢
  all_goals simp only [reduceCtorEq] at hsync
  all_goals cases env <;> simp only [syncSources, Prod.mk.injEq] at h3 <;>
    obtain ⟨rfl, h3e, rfl⟩ := h3
  all_goals simp [hr, hp, SyncCall.isResolve, SyncCall.isUpgradeChannel, exceptErr]
  all_goals simp [h4, exceptErr]

/-- C1, amended, at concrete inputs: with the executable at
`/usr/local/bin/hermit` and every call succeeding, the hypotheses hold, and the
statement says that neither `state.Resolve` nor `state.UpgradeChannel` is
invoked and `Run` returns nil. -/
theorem syncCmd_Run_upgrade_trigger_witness :
    ((syncCmd.Run (exampleSyncDeps "/usr/local/bin/hermit" none none none)
        (none : Option String) 0).calls.any SyncCall.isResolve =
      strings.HasPrefix (filepath.Base (filepath.Dir "/usr/local/bin/hermit")) "hermit@") ∧
    ((syncCmd.Run (exampleSyncDeps "/usr/local/bin/hermit" none none none)
        (none : Option String) 0).calls.any SyncCall.isUpgradeChannel =
      (strings.HasPrefix (filepath.Base (filepath.Dir "/usr/local/bin/hermit")) "hermit@" &&
        (exceptErr ((exampleSyncDeps "/usr/local/bin/hermit" none none none).stateResolve
          ((exampleSyncDeps "/usr/local/bin/hermit" none none none).exactSelector
            ((exampleSyncDeps "/usr/local/bin/hermit" none none none).parseReference
              (filepath.Base (filepath.Dir "/usr/local/bin/hermit"))))
          (syncSources (exampleSyncDeps "/usr/local/bin/hermit" none none none)
            (none : Option String) "default" 2).2.2).1).isNone)) ∧
    (strings.HasPrefix (filepath.Base (filepath.Dir "/usr/local/bin/hermit")) "hermit@" = false →
      (syncCmd.Run (exampleSyncDeps "/usr/local/bin/hermit" none none none)
        (none : Option String) 0).err = none) :=
  syncCmd_Run_upgrade_trigger (exampleSyncDeps "/usr/local/bin/hermit" none none none)
    (none : Option String) 0 1 2 "/usr/local/bin/hermit" "default" rfl rfl rfl

/-- C2: a run of `syncCmd.Run` invokes `state.UpgradeChannel` only after this
chain of results of its dependencies: the executable lookup and `state.Sources`
succeed; then the sync, which is `env.Sync(l, true)` or `srcs.Sync(l, true)`,
returns nil and leaves the world `w3`; then `state.Resolve`, run in `w3`,
returns the package `pkg` and leaves `w4`; and `state.UpgradeChannel` is the
fifth and last call, on `pkg`, run in `w4`.  Conversely, whenever these calls
succeed and the parent directory name starts with `hermit@`, the calls of the
run are these five. -/
theorem syncCmd_Run_upgrade_after_forced_sync (d : SyncDeps σ Env Srcs Ref Sel Pkg Task) (env : Option Env) (w : σ) :
    ((syncCmd.Run d env w).calls.any SyncCall.isUpgradeChannel = true →
      ∃ self w1 srcs w2 w3 pkg w4,
        d.osExecutable w = (Except.ok self, w1) ∧
        d.stateSources w1 = (Except.ok srcs, w2) ∧
        (match env with
          | some e => d.envSync e true w2
          | none => d.srcsSync srcs true w2) = (none, w3) ∧
        d.stateResolve (d.exactSelector (d.parseReference (filepath.Base (filepath.Dir self))))
          w3 = (Except.ok pkg, w4) ∧
        (syncCmd.Run d env w).calls =
          [SyncCall.osExecutable (Except.ok self), SyncCall.stateSources (Except.ok srcs),
            (match env with
              | some e => SyncCall.envSync e true none
              | none => SyncCall.srcsSync srcs true none),
            SyncCall.stateResolve
              (d.exactSelector (d.parseReference (filepath.Base (filepath.Dir self))))
              (Except.ok pkg),
            SyncCall.stateUpgradeChannel (d.uiTask (filepath.Base (filepath.Dir self))) pkg
              (d.stateUpgradeChannel (d.uiTask (filepath.Base (filepath.Dir self))) pkg
                w4).1]) ∧
    (∀ self w1 srcs w2 w3 pkg w4,
      d.osExecutable w = (Except.ok self, w1) →
      d.stateSources w1 = (Except.ok srcs, w2) →
      (match env with
        | some e => d.envSync e true w2
        | none => d.srcsSync srcs true w2) = (none, w3) →
      strings.HasPrefix (filepath.Base (filepath.Dir self)) "hermit@" = true →
      d.stateResolve (d.exactSelector (d.parseReference (filepath.Base (filepath.Dir self))))
        w3 = (Except.ok pkg, w4) →
      (syncCmd.Run d env w).calls =
        [SyncCall.osExecutable (Except.ok self), SyncCall.stateSources (Except.ok srcs),
          (match env with
            | some e => SyncCall.envSync e true none
            | none => SyncCall.srcsSync srcs true none),
          SyncCall.stateResolve
            (d.exactSelector (d.parseReference (filepath.Base (filepath.Dir self))))
            (Except.ok pkg),
          SyncCall.stateUpgradeChannel (d.uiTask (filepath.Base (filepath.Dir self))) pkg
            (d.stateUpgradeChannel (d.uiTask (filepath.Base (filepath.Dir self))) pkg
              w4).1]) := by
  constructor
  · intro h
    rcases syncCmd.Run_cases d env w with
      ⟨e, v1, h1, hr⟩ | ⟨s, v1, e, v2, h1, h2, hr⟩ | ⟨s, v1, ss, v2, c3, e, v3, h1, h2, h3, hr⟩ |
      ⟨s, v1, ss, v2, c3, v3, h1, h2, h3, hp, hr⟩ |
      ⟨s, v1, ss, v2, c3, v3, e, v4, h1, h2, h3, hp, h4, hr⟩ |
      ⟨s, v1, ss, v2, c3, v3, pkg, v4, res, v5, h1, h2, h3, hp, h4, h5, hr⟩
    all_goals try (cases env <;> simp only [syncSources, Prod.mk.injEq] at h3 <;>
      obtain ⟨rfl, h3e, rfl⟩ := h3)
    all_goals rw [hr] at h ⊢
    all_goals simp [SyncCall.isUpgradeChannel] at h
    all_goals refine ⟨s, v1, ss, v2, _, pkg, v4, h1, h2, ?_, h4, ?_⟩
    all_goals simp [h3e, h5, Prod.ext_iff]
  · intro self w1 srcs w2 w3 pkg w4 hexe hsrc hsync hpre hres
    cases env <;> simp only at hsync <;>
      simp [syncCmd.Run, syncSources, hexe, hsrc, hsync, hpre, hres] <;>
      cases h5 : (d.stateUpgradeChannel (d.uiTask (filepath.Base (filepath.Dir self))) pkg
        w4) with
      | mk r5 w5 => cases r5 <;> simp

/-- C2 at a concrete input: the executable is `/opt/hermit@stable/hermit`, the
environment is non-nil and every call succeeds: `state.UpgradeChannel` is
invoked, after the forced sync on the environment and the `state.Resolve`. -/
theorem syncCmd_Run_upgrade_after_forced_sync_witness :
    (syncCmd.Run (exampleSyncDeps "/opt/hermit@stable/hermit" none none none)
      (some "env") 0).calls.any SyncCall.isUpgradeChannel = true ∧
    (syncCmd.Run (exampleSyncDeps "/opt/hermit@stable/hermit" none none none)
      (some "env") 0).calls =
      [SyncCall.osExecutable (Except.ok "/opt/hermit@stable/hermit"),
        SyncCall.stateSources (Except.ok "default"),
        SyncCall.envSync "env" true none,
        SyncCall.stateResolve "hermit@stable" (Except.ok "pkg:hermit@stable"),
        SyncCall.stateUpgradeChannel "hermit@stable" "pkg:hermit@stable" none] :=
  ⟨by decide,
    (syncCmd_Run_upgrade_after_forced_sync (exampleSyncDeps "/opt/hermit@stable/hermit" none none none) (some "env") 0).2
      "/opt/hermit@stable/hermit" 1 "default" 2 3 "pkg:hermit@stable" 4 rfl rfl rfl
      (by decide) rfl⟩

/-- C3, as stated, fails: the executable is `/opt/hermit@stable/hermit` and the
sync on the environment returns the error `SourceUnavailable`.  `Run` returns
that error with a stack and stops: the calls are the executable lookup,
`state.Sources` and the failed sync, and neither `state.Resolve` nor
`state.UpgradeChannel` is invoked. -/
theorem syncCmd_Run_failed_sync_stops :
    strings.HasPrefix (filepath.Base (filepath.Dir "/opt/hermit@stable/hermit")) "hermit@"
      = true ∧
    (syncCmd.Run (exampleSyncDeps "/opt/hermit@stable/hermit"
        (some (GoError.base "SourceUnavailable")) none none) (some "env") 0).err =
      some (GoError.withStack (GoError.base "SourceUnavailable")) ∧
    (syncCmd.Run (exampleSyncDeps "/opt/hermit@stable/hermit"
        (some (GoError.base "SourceUnavailable")) none none) (some "env") 0).calls.map
      SyncCall.err = [none, none, some (GoError.base "SourceUnavailable")] ∧
    (syncCmd.Run (exampleSyncDeps "/opt/hermit@stable/hermit"
        (some (GoError.base "SourceUnavailable")) none none) (some "env") 0).calls.any
      SyncCall.isResolve = false ∧
    (syncCmd.Run (exampleSyncDeps "/opt/hermit@stable/hermit"
        (some (GoError.base "SourceUnavailable")) none none) (some "env") 0).calls.any
      SyncCall.isUpgradeChannel = false := by
  decide

/-- C3, amended: when the sync performed by `syncCmd.Run` returns an error,
`Run` stops there: it returns that error with a stack added, the calls made are
the executable lookup, `state.Sources` and the sync, and neither
`state.Resolve` nor `state.UpgradeChannel` is invoked, whatever the name of the
executable's parent directory. -/
theorem syncCmd_Run_sync_error_aborts (d : SyncDeps σ Env Srcs Ref Sel Pkg Task)
    (env : Option Env) (w w1 w2 : σ) (self : String) (srcs : Srcs) (e : GoError)
    (hexe : d.osExecutable w = (Except.ok self, w1))
    (hsrc : d.stateSources w1 = (Except.ok srcs, w2))
    (hsync : (syncSources d env srcs w2).2.1 = some e) :
    (syncCmd.Run d env w).err = some (errors.WithStack e) ∧
    (syncCmd.Run d env w).calls.any SyncCall.isResolve = false ∧
    (syncCmd.Run d env w).calls.any SyncCall.isUpgradeChannel = false ∧
    (syncCmd.Run d env w).calls.map SyncCall.rank = [0, 1, 2] := by
  rcases syncCmd.Run_cases d env w with
    ⟨e, v1, h1, hr⟩ | ⟨s, v1, e, v2, h1, h2, hr⟩ | ⟨s, v1, ss, v2, c3, e, v3, h1, h2, h3, hr⟩ |
    ⟨s, v1, ss, v2, c3, v3, h1, h2, h3, hp, hr⟩ |
    ⟨s, v1, ss, v2, c3, v3, e, v4, h1, h2, h3, hp, h4, hr⟩ |
    ⟨s, v1, ss, v2, c3, v3, pkg, v4, res, v5, h1, h2, h3, hp, h4, h5, hr⟩
  all_goals
    simp only [hexe, Prod.mk.injEq, Except.ok.injEq, reduceCtorEq, false_and] at h1
  all_goals obtain ⟨rfl, rfl⟩ := h1
  all_goals simp only [hsrc, Prod.mk.injEq, Except.ok.injEq, reduceCtorEq, false_and] at h2
  all_goals obtain ⟨rfl, rfl⟩ := h2
  all_goals rw [h3] at hsync
  all_goals simp only [reduceCtorEq, Option.some.injEq] at hsync
  all_goals cases env <;> simp only [syncSources, Prod.mk.injEq] at h3 <;>
    obtain ⟨rfl, h3e, rfl⟩ := h3
  all_goals simp [hr, hsync, SyncCall.isResolve, SyncCall.isUpgradeChannel, SyncCall.rank]

/-- C3, amended, at a concrete input: the executable is
`/opt/hermit@stable/hermit`, the environment is nil and the sync on the default
sources returns `SourceUnavailable`. -/
theorem syncCmd_Run_sync_error_aborts_witness :
    (syncCmd.Run (exampleSyncDeps "/opt/hermit@stable/hermit"
        (some (GoError.base "SourceUnavailable")) none none) (none : Option String) 0).err =
      some (errors.WithStack (GoError.base "SourceUnavailable")) ∧
    (syncCmd.Run (exampleSyncDeps "/opt/hermit@stable/hermit"
        (some (GoError.base "SourceUnavailable")) none none) (none : Option String) 0).calls.any
      SyncCall.isResolve = false ∧
    (syncCmd.Run (exampleSyncDeps "/opt/hermit@stable/hermit"
        (some (GoError.base "SourceUnavailable")) none none) (none : Option String) 0).calls.any
      SyncCall.isUpgradeChannel = false ∧
    (syncCmd.Run (exampleSyncDeps "/opt/hermit@stable/hermit"
        (some (GoError.base "SourceUnavailable")) none none) (none : Option String) 0).calls.map
      SyncCall.rank = [0, 1, 2] :=
  syncCmd_Run_sync_error_aborts
    (exampleSyncDeps "/opt/hermit@stable/hermit" (some (GoError.base "SourceUnavailable"))
      none none)
    (none : Option String) 0 1 2 "/opt/hermit@stable/hermit" "default"
    (GoError.base "SourceUnavailable") rfl rfl rfl

/-- C4, as stated, fails: the executable is `/opt/hermit@1.0.0/hermit`, whose
parent directory is named `hermit@1.0.0`, and every call succeeds.  `Run`
invokes `state.UpgradeChannel`, on the package that `state.Resolve` returned
for the reference `hermit@1.0.0`. -/
theorem syncCmd_Run_exact_version_upgrades :
    filepath.Base (filepath.Dir "/opt/hermit@1.0.0/hermit") = "hermit@1.0.0" ∧
    (syncCmd.Run (exampleSyncDeps "/opt/hermit@1.0.0/hermit" none none none)
        (none : Option String) 0).calls.any SyncCall.isUpgradeChannel = true ∧
    (syncCmd.Run (exampleSyncDeps "/opt/hermit@1.0.0/hermit" none none none)
        (none : Option String) 0).calls.getLast? =
      some (SyncCall.stateUpgradeChannel "hermit@1.0.0" "pkg:hermit@1.0.0" none) :=
  ⟨by decide, by decide, rfl⟩

/-- C4, amended: `syncCmd.Run` does not look at whether the reference recovered
from the executable's parent directory name is channel-bound.  Whenever that
name starts with `hermit@` (as `hermit@1.0.0` does) and the executable lookup,
`state.Sources`, the sync and `state.Resolve` succeed, `Run` invokes
`state.UpgradeChannel`, as its last call, on the package that `state.Resolve`
returned. -/
theorem syncCmd_Run_upgrades_any_hermit_ref (d : SyncDeps σ Env Srcs Ref Sel Pkg Task)
    (env : Option Env) (w w1 w2 w4 : σ) (self : String) (srcs : Srcs) (pkg : Pkg)
    (hexe : d.osExecutable w = (Except.ok self, w1))
    (hsrc : d.stateSources w1 = (Except.ok srcs, w2))
    (hsync : (syncSources d env srcs w2).2.1 = none)
    (hpre : strings.HasPrefix (filepath.Base (filepath.Dir self)) "hermit@" = true)
    (hres : d.stateResolve
        (d.exactSelector (d.parseReference (filepath.Base (filepath.Dir self))))
        (syncSources d env srcs w2).2.2 = (Except.ok pkg, w4)) :
    (syncCmd.Run d env w).calls.getLast? =
      some (SyncCall.stateUpgradeChannel (d.uiTask (filepath.Base (filepath.Dir self))) pkg
        (d.stateUpgradeChannel (d.uiTask (filepath.Base (filepath.Dir self))) pkg w4).1) ∧
    (syncCmd.Run d env w).calls.any SyncCall.isUpgradeChannel = true := by
  rcases syncCmd.Run_cases d env w with
    ⟨e, v1, h1, hr⟩ | ⟨s, v1, e, v2, h1, h2, hr⟩ | ⟨s, v1, ss, v2, c3, e, v3, h1, h2, h3, hr⟩ |
    ⟨s, v1, ss, v2, c3, v3, h1, h2, h3, hp, hr⟩ |
    ⟨s, v1, ss, v2, c3, v3, e, v4, h1, h2, h3, hp, h4, hr⟩ |
    ⟨s, v1, ss, v2, c3, v3, pkg, v4, res, v5, h1, h2, h3, hp, h4, h5, hr⟩
  all_goals
    simp only [hexe, Prod.mk.injEq, Except.ok.injEq, reduceCtorEq, false_and] at h1
  all_goals obtain ⟨rfl, rfl⟩ := h1
  all_goals simp only [hsrc, Prod.mk.injEq, Except.ok.injEq, reduceCtorEq, false_and] at h2
  all_goals obtain ⟨rfl, rfl⟩ := h2
  all_goals rw [h3] at hsync hres
  all_goals simp only [reduceCtorEq] at hsync
  all_goals simp only [hpre, reduceCtorEq] at hp
  all_goals simp only [hres, Prod.mk.injEq, Except.ok.injEq, reduceCtorEq, false_and] at h4
  all_goals obtain ⟨rfl, rfl⟩ := h4
  all_goals simp [hr, h5, SyncCall.isUpgradeChannel]

/-- C4, amended, at the input of the claim: the parent directory is named
`hermit@1.0.0` and every call succeeds. -/
theorem syncCmd_Run_upgrades_any_hermit_ref_witness :
    (syncCmd.Run (exampleSyncDeps "/opt/hermit@1.0.0/hermit" none none none)
        (some "env") 0).calls.getLast? =
      some (SyncCall.stateUpgradeChannel
        ((exampleSyncDeps "/opt/hermit@1.0.0/hermit" none none none).uiTask
          (filepath.Base (filepath.Dir "/opt/hermit@1.0.0/hermit")))
        "pkg:hermit@1.0.0"
        ((exampleSyncDeps "/opt/hermit@1.0.0/hermit" none none none).stateUpgradeChannel
          ((exampleSyncDeps "/opt/hermit@1.0.0/hermit" none none none).uiTask
            (filepath.Base (filepath.Dir "/opt/hermit@1.0.0/hermit")))
          "pkg:hermit@1.0.0" 4).1) ∧
    (syncCmd.Run (exampleSyncDeps "/opt/hermit@1.0.0/hermit" none none none)
        (some "env") 0).calls.any SyncCall.isUpgradeChannel = true :=
  syncCmd_Run_upgrades_any_hermit_ref
    (exampleSyncDeps "/opt/hermit@1.0.0/hermit" none none none) (some "env") 0 1 2 4
    "/opt/hermit@1.0.0/hermit" "default" "pkg:hermit@1.0.0" rfl rfl rfl (by decide) rfl

/-- C5: what `syncCmd.Run` returns, by the first failing call of its
dependencies.  If `os.Executable` fails, or it succeeds and `state.Sources`
fails, or both succeed and the sync fails, or the three succeed, the parent
directory name starts with `hermit@` and `state.Resolve` fails, `Run` returns
that call's error wrapped by `errors.WithStack` and has made no call after it;
if `state.Resolve` succeeds too, `Run` returns what `state.UpgradeChannel`
returns, wrapped when it is an error; if the three succeed and the name does not
start with `hermit@`, `Run` returns nil after the sync.  Each call runs in the
world its predecessor left.  `errors.WithStack` wraps the error and leaves its
cause unchanged.  In terms of the log: `Run` returns a non-nil error if and only
if one of the calls it made returned an error; the calls are an initial part of
executable lookup, `state.Sources`, sync, `state.Resolve`,
`state.UpgradeChannel`, in that order; every call but the last returned nil; a
returned error is the last call's error with a stack added. -/
theorem syncCmd_Run_error_propagation (d : SyncDeps σ Env Srcs Ref Sel Pkg Task) (env : Option Env) (w : σ) :
    (∀ e w1, d.osExecutable w = (Except.error e, w1) →
      syncCmd.Run d env w =
        ⟨some (errors.WithStack e), [SyncCall.osExecutable (Except.error e)], w1⟩) ∧
    (∀ self w1 e w2, d.osExecutable w = (Except.ok self, w1) →
      d.stateSources w1 = (Except.error e, w2) →
      syncCmd.Run d env w =
        ⟨some (errors.WithStack e),
          [SyncCall.osExecutable (Except.ok self), SyncCall.stateSources (Except.error e)],
          w2⟩) ∧
    (∀ self w1 srcs w2 e w3, d.osExecutable w = (Except.ok self, w1) →
      d.stateSources w1 = (Except.ok srcs, w2) →
      (match env with
        | some x => d.envSync x true w2
        | none => d.srcsSync srcs true w2) = (some e, w3) →
      syncCmd.Run d env w =
        ⟨some (errors.WithStack e),
          [SyncCall.osExecutable (Except.ok self), SyncCall.stateSources (Except.ok srcs),
            (match env with
              | some x => SyncCall.envSync x true (some e)
              | none => SyncCall.srcsSync srcs true (some e))],
          w3⟩) ∧
    (∀ self w1 srcs w2 w3, d.osExecutable w = (Except.ok self, w1) →
      d.stateSources w1 = (Except.ok srcs, w2) →
      (match env with
        | some x => d.envSync x true w2
        | none => d.srcsSync srcs true w2) = (none, w3) →
      strings.HasPrefix (filepath.Base (filepath.Dir self)) "hermit@" = false →
      syncCmd.Run d env w =
        ⟨none,
          [SyncCall.osExecutable (Except.ok self), SyncCall.stateSources (Except.ok srcs),
            (match env with
              | some x => SyncCall.envSync x true none
              | none => SyncCall.srcsSync srcs true none)],
          w3⟩) ∧
    (∀ self w1 srcs w2 w3 e w4, d.osExecutable w = (Except.ok self, w1) →
      d.stateSources w1 = (Except.ok srcs, w2) →
      (match env with
        | some x => d.envSync x true w2
        | none => d.srcsSync srcs true w2) = (none, w3) →
      strings.HasPrefix (filepath.Base (filepath.Dir self)) "hermit@" = true →
      d.stateResolve (d.exactSelector (d.parseReference (filepath.Base (filepath.Dir self))))
        w3 = (Except.error e, w4) →
      syncCmd.Run d env w =
        ⟨some (errors.WithStack e),
          [SyncCall.osExecutable (Except.ok self), SyncCall.stateSources (Except.ok srcs),
            (match env with
              | some x => SyncCall.envSync x true none
              | none => SyncCall.srcsSync srcs true none),
            SyncCall.stateResolve
              (d.exactSelector (d.parseReference (filepath.Base (filepath.Dir self))))
              (Except.error e)],
          w4⟩) ∧
    (∀ self w1 srcs w2 w3 pkg w4 r5 w5, d.osExecutable w = (Except.ok self, w1) →
      d.stateSources w1 = (Except.ok srcs, w2) →
      (match env with
        | some x => d.envSync x true w2
        | none => d.srcsSync srcs true w2) = (none, w3) →
      strings.HasPrefix (filepath.Base (filepath.Dir self)) "hermit@" = true →
      d.stateResolve (d.exactSelector (d.parseReference (filepath.Base (filepath.Dir self))))
        w3 = (Except.ok pkg, w4) →
      d.stateUpgradeChannel (d.uiTask (filepath.Base (filepath.Dir self))) pkg w4 = (r5, w5) →
      syncCmd.Run d env w =
        ⟨r5.map errors.WithStack,
          [SyncCall.osExecutable (Except.ok self), SyncCall.stateSources (Except.ok srcs),
            (match env with
              | some x => SyncCall.envSync x true none
              | none => SyncCall.srcsSync srcs true none),
            SyncCall.stateResolve
              (d.exactSelector (d.parseReference (filepath.Base (filepath.Dir self))))
              (Except.ok pkg),
            SyncCall.stateUpgradeChannel (d.uiTask (filepath.Base (filepath.Dir self))) pkg r5],
          w5⟩) ∧
    (∀ e, errors.WithStack e ≠ e ∧ errors.Cause (errors.WithStack e) = errors.Cause e) ∧
    ((syncCmd.Run d env w).err ≠ none ↔ ∃ c ∈ (syncCmd.Run d env w).calls, c.err ≠ none) ∧
    (syncCmd.Run d env w).calls.map SyncCall.rank <+: [0, 1, 2, 3, 4] ∧
    ((syncCmd.Run d env w).err = none →
      (syncCmd.Run d env w).calls.map SyncCall.rank = [0, 1, 2] ∨
      (syncCmd.Run d env w).calls.map SyncCall.rank = [0, 1, 2, 3, 4]) ∧
    (∀ c ∈ (syncCmd.Run d env w).calls.dropLast, c.err = none) ∧
    (∀ e, (syncCmd.Run d env w).err = some e →
      ∃ c e0, (syncCmd.Run d env w).calls.getLast? = some c ∧ c.err = some e0 ∧
        e = errors.WithStack e0 ∧ errors.Cause e = errors.Cause e0) := by
  refine ⟨?_, ?_, ?_, ?_, ?_, ?_, ?_, ?_⟩
  · intro e w1 hexe
    simp [syncCmd.Run, hexe]
  · intro self w1 e w2 hexe hsrc
    simp [syncCmd.Run, hexe, hsrc]
  · intro self w1 srcs w2 e w3 hexe hsrc hsync
    cases env <;> simp only at hsync <;>
      simp [syncCmd.Run, syncSources, hexe, hsrc, hsync]
  · intro self w1 srcs w2 w3 hexe hsrc hsync hpre
    cases env <;> simp only at hsync <;>
      simp [syncCmd.Run, syncSources, hexe, hsrc, hsync, hpre]
  · intro self w1 srcs w2 w3 e w4 hexe hsrc hsync hpre hres
    cases env <;> simp only at hsync <;>
      simp [syncCmd.Run, syncSources, hexe, hsrc, hsync, hpre, hres]
  · intro self w1 srcs w2 w3 pkg w4 r5 w5 hexe hsrc hsync hpre hres hup
    cases env <;> simp only at hsync <;> cases r5 <;>
      simp [syncCmd.Run, syncSources, hexe, hsrc, hsync, hpre, hres, hup]
  · intro e
    refine ⟨?_, rfl⟩
    intro h
    have hs := congrArg sizeOf h
    simp [errors.WithStack] at hs
  · rcases syncCmd.Run_cases d env w with
      ⟨e, v1, h1, hr⟩ | ⟨s, v1, e, v2, h1, h2, hr⟩ | ⟨s, v1, ss, v2, c3, e, v3, h1, h2, h3, hr⟩ |
      ⟨s, v1, ss, v2, c3, v3, h1, h2, h3, hp, hr⟩ |
      ⟨s, v1, ss, v2, c3, v3, e, v4, h1, h2, h3, hp, h4, hr⟩ |
      ⟨s, v1, ss, v2, c3, v3, pkg, v4, res, v5, h1, h2, h3, hp, h4, h5, hr⟩
    all_goals try (cases env <;> simp only [syncSources, Prod.mk.injEq] at h3 <;>
      obtain ⟨rfl, h3e, rfl⟩ := h3)
    all_goals try cases res
    all_goals rw [hr]
    all_goals refine ⟨?_, ?_, ?_, ?_, ?_⟩
    all_goals first
      | simp [SyncCall.rank, SyncCall.err, exceptErr, h3e, errors.WithStack, errors.Cause]
      | simp [SyncCall.rank, SyncCall.err, exceptErr, errors.WithStack, errors.Cause]

/-- C5 at a concrete input: `state.Resolve` fails with `UnknownPackage` after a
successful sync on the default sources; `Run` returns that error with a stack
added and `state.UpgradeChannel` is not called. -/
theorem syncCmd_Run_error_propagation_witness :
    syncCmd.Run (exampleSyncDeps "/opt/hermit@stable/hermit" none
        (some (GoError.base "UnknownPackage")) none) (none : Option String) 0 =
      ⟨some (errors.WithStack (GoError.base "UnknownPackage")),
        [SyncCall.osExecutable (Except.ok "/opt/hermit@stable/hermit"),
          SyncCall.stateSources (Except.ok "default"),
          SyncCall.srcsSync "default" true none,
          SyncCall.stateResolve "hermit@stable" (Except.error (GoError.base "UnknownPackage"))],
        4⟩ :=
  (syncCmd_Run_error_propagation (exampleSyncDeps "/opt/hermit@stable/hermit" none
      (some (GoError.base "UnknownPackage")) none) (none : Option String) 0).2.2.2.2.1
    "/opt/hermit@stable/hermit" 1 "default" 2 3 (GoError.base "UnknownPackage") 4
    rfl rfl rfl (by decide) rfl

/-- C6: in a run of `syncCmd.Run` that gets past the executable lookup and
`state.Sources`, the sync calls made are exactly one: with a non-nil `env`,
`env.Sync` with `force = true`; with a nil `env`, `Sync` with `force = true` on
the sources that `state.Sources` returned. -/
theorem syncCmd_Run_one_forced_sync (d : SyncDeps σ Env Srcs Ref Sel Pkg Task)
    (env : Option Env) (w w1 w2 : σ) (self : String) (srcs : Srcs)
    (hexe : d.osExecutable w = (Except.ok self, w1))
    (hsrc : d.stateSources w1 = (Except.ok srcs, w2)) :
    (syncCmd.Run d env w).calls.filter SyncCall.isSync =
      [match env with
        | some e => SyncCall.envSync e true (d.envSync e true w2).1
        | none => SyncCall.srcsSync srcs true (d.srcsSync srcs true w2).1] := by
  rcases syncCmd.Run_cases d env w with
    ⟨e, v1, h1, hr⟩ | ⟨s, v1, e, v2, h1, h2, hr⟩ | ⟨s, v1, ss, v2, c3, e, v3, h1, h2, h3, hr⟩ |
    ⟨s, v1, ss, v2, c3, v3, h1, h2, h3, hp, hr⟩ |
    ⟨s, v1, ss, v2, c3, v3, e, v4, h1, h2, h3, hp, h4, hr⟩ |
    ⟨s, v1, ss, v2, c3, v3, pkg, v4, res, v5, h1, h2, h3, hp, h4, h5, hr⟩
  all_goals
    simp only [hexe, Prod.mk.injEq, Except.ok.injEq, reduceCtorEq, false_and] at h1
  all_goals obtain ⟨rfl, rfl⟩ := h1
  all_goals simp only [hsrc, Prod.mk.injEq, Except.ok.injEq, reduceCtorEq, false_and] at h2
  all_goals obtain ⟨rfl, rfl⟩ := h2
  all_goals cases env <;> simp only [syncSources, Prod.mk.injEq] at h3 <;>
    obtain ⟨rfl, h3e, rfl⟩ := h3
  all_goals simp [hr, SyncCall.isSync, List.filter]

/-- C6 at a concrete input: a non-nil environment, the executable at
`/opt/hermit@stable/hermit`, every call succeeding. -/
theorem syncCmd_Run_one_forced_sync_witness :
    (syncCmd.Run (exampleSyncDeps "/opt/hermit@stable/hermit" none none none)
        (some "env") 0).calls.filter SyncCall.isSync =
      [match (some "env" : Option String) with
        | some e => SyncCall.envSync e true
            ((exampleSyncDeps "/opt/hermit@stable/hermit" none none none).envSync e true 2).1
        | none => SyncCall.srcsSync "default" true
            ((exampleSyncDeps "/opt/hermit@stable/hermit" none none none).srcsSync
              "default" true 2).1] :=
  syncCmd_Run_one_forced_sync (exampleSyncDeps "/opt/hermit@stable/hermit" none none none)
    (some "env") 0 1 2 "/opt/hermit@stable/hermit" "default" rfl rfl

/-- C9: in a run of `syncCmd.Run` in which the executable lookup returns `self`,
`state.Sources` and the sync succeed and the base name `pkgRef` of the parent
directory of `self` starts with `hermit@`, the fourth call is `state.Resolve`
with the selector `ExactSelector(ParseReference(pkgRef))`, run in the world the
sync left.  When it returns a package, the fifth and last call is
`state.UpgradeChannel` with the task `l.Task(pkgRef)` and that package, run in
the world that `state.Resolve` left, and `Run` returns its result; when it
returns an error, there is no fifth call.  No call of the run is a
`state.Resolve` with another selector or a `state.UpgradeChannel` with another
task or package. -/
theorem syncCmd_Run_resolve_and_upgrade_arguments (d : SyncDeps σ Env Srcs Ref Sel Pkg Task) (env : Option Env)
    (w w1 w2 w3 : σ) (self : String) (srcs : Srcs)
    (hexe : d.osExecutable w = (Except.ok self, w1))
    (hsrc : d.stateSources w1 = (Except.ok srcs, w2))
    (hsync : (match env with
      | some x => d.envSync x true w2
      | none => d.srcsSync srcs true w2) = (none, w3))
    (hpre : strings.HasPrefix (filepath.Base (filepath.Dir self)) "hermit@" = true) :
    (syncCmd.Run d env w).calls.take 4 =
      [SyncCall.osExecutable (Except.ok self), SyncCall.stateSources (Except.ok srcs),
        (match env with
          | some x => SyncCall.envSync x true none
          | none => SyncCall.srcsSync srcs true none),
        SyncCall.stateResolve
          (d.exactSelector (d.parseReference (filepath.Base (filepath.Dir self))))
          (d.stateResolve
            (d.exactSelector (d.parseReference (filepath.Base (filepath.Dir self)))) w3).1] ∧
    (∀ pkg w4,
      d.stateResolve (d.exactSelector (d.parseReference (filepath.Base (filepath.Dir self))))
        w3 = (Except.ok pkg, w4) →
      (syncCmd.Run d env w).calls.drop 4 =
        [SyncCall.stateUpgradeChannel (d.uiTask (filepath.Base (filepath.Dir self))) pkg
          (d.stateUpgradeChannel (d.uiTask (filepath.Base (filepath.Dir self))) pkg w4).1] ∧
      (syncCmd.Run d env w).err =
        (d.stateUpgradeChannel (d.uiTask (filepath.Base (filepath.Dir self))) pkg w4).1.map
          errors.WithStack ∧
      (syncCmd.Run d env w).world =
        (d.stateUpgradeChannel (d.uiTask (filepath.Base (filepath.Dir self))) pkg w4).2) ∧
    (∀ e w4,
      d.stateResolve (d.exactSelector (d.parseReference (filepath.Base (filepath.Dir self))))
        w3 = (Except.error e, w4) →
      (syncCmd.Run d env w).calls.drop 4 = [] ∧
      (syncCmd.Run d env w).err = some (errors.WithStack e)) ∧
    (∀ c ∈ (syncCmd.Run d env w).calls,
      (∀ sel res, c = SyncCall.stateResolve sel res →
        sel = d.exactSelector (d.parseReference (filepath.Base (filepath.Dir self)))) ∧
      (∀ task pkg res, c = SyncCall.stateUpgradeChannel task pkg res →
        task = d.uiTask (filepath.Base (filepath.Dir self)) ∧
        (d.stateResolve
          (d.exactSelector (d.parseReference (filepath.Base (filepath.Dir self)))) w3).1 =
            Except.ok pkg)) := by
  rcases hres : d.stateResolve
    (d.exactSelector (d.parseReference (filepath.Base (filepath.Dir self)))) w3 with ⟨r4, v4⟩
  rcases r4 with e | pkg
  · cases env <;> simp only at hsync <;>
      simp [syncCmd.Run, syncSources, hexe, hsrc, hsync, hpre, hres]
  · rcases hup : d.stateUpgradeChannel (d.uiTask (filepath.Base (filepath.Dir self))) pkg v4
      with ⟨r5, v5⟩
    cases env <;> simp only at hsync <;> cases r5 <;>
      simp [syncCmd.Run, syncSources, hexe, hsrc, hsync, hpre, hres, hup]

/-- C9 at a concrete input: the executable is `/opt/hermit@stable/hermit` and
every call succeeds: `state.Resolve` gets the selector of `hermit@stable`, and
`state.UpgradeChannel` the package that it returned. -/
theorem syncCmd_Run_resolve_and_upgrade_arguments_witness :
    (syncCmd.Run (exampleSyncDeps "/opt/hermit@stable/hermit" none none none)
      (none : Option String) 0).calls.take 4 =
      [SyncCall.osExecutable (Except.ok "/opt/hermit@stable/hermit"),
        SyncCall.stateSources (Except.ok "default"),
        SyncCall.srcsSync "default" true none,
        SyncCall.stateResolve "hermit@stable" (Except.ok "pkg:hermit@stable")] ∧
    (syncCmd.Run (exampleSyncDeps "/opt/hermit@stable/hermit" none none none)
      (none : Option String) 0).calls.drop 4 =
      [SyncCall.stateUpgradeChannel "hermit@stable" "pkg:hermit@stable" none] :=
  ⟨(syncCmd_Run_resolve_and_upgrade_arguments (exampleSyncDeps "/opt/hermit@stable/hermit" none none none)
      (none : Option String) 0 1 2 3 "/opt/hermit@stable/hermit" "default" rfl rfl rfl
      (by decide)).1,
    ((syncCmd_Run_resolve_and_upgrade_arguments (exampleSyncDeps "/opt/hermit@stable/hermit" none none none)
      (none : Option String) 0 1 2 3 "/opt/hermit@stable/hermit" "default" rfl rfl rfl
      (by decide)).2.1 "pkg:hermit@stable" 4 rfl).1⟩

end SyncCmdTheorems

/-! ## The test fixture -/

section FixtureTheorems

variable {σ S E U B Srv Cl Ca Src H T : Type}

/-- The loop of `Clean` removes the directories it is given, in order. -/
theorem cleanEnvDirs_removed (d : FixtureDeps σ S E U B Srv Cl Ca Src H) (dirs : List String)
    (w : σ) : removedDirs (cleanEnvDirs d dirs w).1 = dirs := by
  induction dirs generalizing w with
  | nil => rfl
  | cons dir rest ih => simp [cleanEnvDirs, removedDirs, ih]

/-- The removed directories of two logs, one after the other. -/
theorem removedDirs_append (xs ys : List (FixtureCall S E U B Srv Cl Ca Src H)) :
    removedDirs (xs ++ ys) = removedDirs xs ++ removedDirs ys := by
  induction xs with
  | nil => rfl
  | cons c rest ih => cases c <;> simp [removedDirs, ih]

/-- The directories `Clean` hands to `os.RemoveAll`: the `EnvDirs`, then the root
of the state. -/
theorem Clean_removed (d : FixtureDeps σ S E U B Srv Cl Ca Src H)
    (f : EnvTestFixture S E U B Srv T) (w : σ) :
    removedDirs (EnvTestFixture.Clean d f w).calls = f.EnvDirs ++ [d.stateRoot f.State] := by
  simp [EnvTestFixture.Clean, removedDirs_append, cleanEnvDirs_removed, removedDirs]

/-- However `NewEnv` ends, it leaves every field of the fixture as it was. -/
theorem NewEnv_fixture (d : FixtureDeps σ S E U B Srv Cl Ca Src H)
    (f : EnvTestFixture S E U B Srv T) (w : σ) :
    (EnvTestFixture.NewEnv d f w).fixture = f := by
  unfold EnvTestFixture.NewEnv
  split
  · rfl
  · split
    split
    · rfl
    · split <;> rfl

/-- The first call of `NewEnv` is `ioutil.TempDir("", "")`. -/
theorem NewEnv_first_call (d : FixtureDeps σ S E U B Srv Cl Ca Src H)
    (f : EnvTestFixture S E U B Srv T) (w : σ) :
    (EnvTestFixture.NewEnv d f w).calls.head? =
      some (FixtureCall.tempDir "" "" (d.tempDir "" "" w).1) := by
  rcases h1 : d.tempDir "" "" w with ⟨r1, w1⟩
  cases r1 with
  | error e => simp [EnvTestFixture.NewEnv, h1]
  | ok envDir =>
    rcases h2 : d.newForTesting w1 with ⟨⟨log, buf⟩, w2⟩
    rcases h3 : d.hermitInit log envDir "" (d.stateRoot f.State) w2 with ⟨r3, w3⟩
    cases r3 with
    | some e => simp [EnvTestFixture.NewEnv, h1, h2, h3]
    | none =>
      rcases h4 : d.openEnv envDir f.State (d.serverClient f.Server) w3 with ⟨r4, w4⟩
      cases r4 <;> simp [EnvTestFixture.NewEnv, h1, h2, h3, h4]

/-- The calls of a `NewEnv` that returns an environment. -/
theorem NewEnv_returned (d : FixtureDeps σ S E U B Srv Cl Ca Src H)
    (f : EnvTestFixture S E U B Srv T) (w : σ) (env : E)
    (h : (EnvTestFixture.NewEnv d f w).result = TestResult.returned env) :
    ∃ envDir log buf, (EnvTestFixture.NewEnv d f w).calls =
      [FixtureCall.tempDir "" "" (Except.ok envDir), FixtureCall.newForTesting log buf,
        FixtureCall.hermitInit log envDir "" (d.stateRoot f.State) none,
        FixtureCall.openEnv envDir f.State (d.serverClient f.Server) (Except.ok env)] := by
  unfold EnvTestFixture.NewEnv at h ⊢
  split at h
  · simp at h
  · split at h
    split at h
    · simp at h
    · split at h
      · simp at h
      · simp at h
        subst h
        rename_i h1 _ _ _ _ h2 _ _ h3 _ _ _ h4
        simp [h1, h2, h3, h4]


/-- The calls of a `NewEnvTestFixture` that returns a fixture, and the fixture. -/
theorem NewEnvTestFixture_returned (d : FixtureDeps σ S E U B Srv Cl Ca Src H) (t : T)
    (handler : H) (w : σ) (f : EnvTestFixture S E U B Srv T)
    (h : (NewEnvTestFixture d t handler w).result = TestResult.returned f) :
    ∃ envDir stateDir log buf server cache sta env,
      f = { State := sta, EnvDirs := [envDir], Logs := buf, Env := env, Server := server,
            t := t, P := log } ∧
      (NewEnvTestFixture d t handler w).calls =
        [FixtureCall.tempDir "" "" (Except.ok envDir),
          FixtureCall.tempDir "" "" (Except.ok stateDir),
          FixtureCall.newForTesting log buf,
          FixtureCall.hermitInit log envDir "" stateDir none,
          FixtureCall.newServer handler server,
          FixtureCall.cacheOpen stateDir (d.serverClient server) (d.serverClient server)
            (Except.ok cache),
          FixtureCall.stateOpen stateDir cache (Except.ok sta),
          FixtureCall.openEnv envDir sta (d.serverClient server) (Except.ok env)] := by
  rcases h1 : d.tempDir "" "" w with ⟨r1, w1⟩
  cases r1 with
  | error e => simp [NewEnvTestFixture, h1] at h
  | ok envDir =>
    rcases h2 : d.tempDir "" "" w1 with ⟨r2, w2⟩
    cases r2 with
    | error e => simp [NewEnvTestFixture, h1, h2] at h
    | ok stateDir =>
      rcases h3 : d.newForTesting w2 with ⟨⟨log, buf⟩, w3⟩
      rcases h4 : d.hermitInit log envDir "" stateDir w3 with ⟨r4, w4⟩
      cases r4 with
      | some e => simp [NewEnvTestFixture, h1, h2, h3, h4] at h
      | none =>
        rcases h5 : d.newServer handler w4 with ⟨server, w5⟩
        rcases h6 : d.cacheOpen stateDir (d.serverClient server) (d.serverClient server) w5
          with ⟨r6, w6⟩
        cases r6 with
        | error e => simp [NewEnvTestFixture, h1, h2, h3, h4, h5, h6] at h
        | ok cache =>
          rcases h7 : d.stateOpen stateDir cache w6 with ⟨r7, w7⟩
          cases r7 with
          | error e => simp [NewEnvTestFixture, h1, h2, h3, h4, h5, h6, h7] at h
          | ok sta =>
            rcases h8 : d.openEnv envDir sta (d.serverClient server) w7 with ⟨r8, w8⟩
            cases r8 with
            | error e => simp [NewEnvTestFixture, h1, h2, h3, h4, h5, h6, h7, h8] at h
            | ok env =>
              simp only [NewEnvTestFixture, h1, h2, h3, h4, h5, h6, h7, h8,
                TestResult.returned.injEq] at h
              exact ⟨envDir, stateDir, log, buf, server, cache, sta, env, h.symm,
                by simp [NewEnvTestFixture, h1, h2, h3, h4, h5, h6, h7, h8]⟩

/-- The loop of `WithManifests` either adds every entry and returns, or stops at
the first entry whose `AddSource` returns an error. -/
theorem withManifestsLoop_cases (d : FixtureDeps σ S E U B Srv Cl Ca Src H)
    (f : EnvTestFixture S E U B Srv T) (files : List (String × String)) (w : σ) :
    ((withManifestsLoop d f files w).1 = TestResult.returned () ∧
      (withManifestsLoop d f files w).2.1 = files.map (fun nc =>
        FixtureCall.addSource f.Env f.P (d.newMemSource nc.1 nc.2) none)) ∨
    (∃ n name content e, files[n]? = some (name, content) ∧
      (withManifestsLoop d f files w).1 = TestResult.failNow e ∧
      (withManifestsLoop d f files w).2.1 =
        (files.take n).map (fun nc =>
          FixtureCall.addSource f.Env f.P (d.newMemSource nc.1 nc.2) none) ++
        [FixtureCall.addSource f.Env f.P (d.newMemSource name content) (some e)]) := by
  induction files generalizing w with
  | nil => exact Or.inl ⟨rfl, rfl⟩
  | cons nc rest ih =>
    obtain ⟨name, content⟩ := nc
    rcases h1 : d.addSource f.Env f.P (d.newMemSource name content) w with ⟨r1, w1⟩
    cases r1 with
    | some e =>
      exact Or.inr ⟨0, name, content, e, by simp, by simp [withManifestsLoop, h1],
        by simp [withManifestsLoop, h1]⟩
    | none =>
      rcases ih w1 with ⟨hr, hc⟩ | ⟨n, name', content', e, hn, hr, hc⟩
      · exact Or.inl ⟨by simp [withManifestsLoop, h1, hr], by simp [withManifestsLoop, h1, hc]⟩
      · exact Or.inr ⟨n + 1, name', content', e, by simpa using hn,
          by simp [withManifestsLoop, h1, hr], by simp [withManifestsLoop, h1, hc]⟩

/-- C7: `WithManifests` calls nothing but `AddSource`, always on the fixture's
own `Env` (and `P`), each time with `NewMemSource(name, content)` of an entry of
`files`.  Either every `AddSource` returns nil, and then there is one call per
entry, in the order of the iteration, and the fixture it was called on is
returned; or the test stops (`FailNow`) with the error of the first failing
`AddSource`, after the calls for the entries before it.  The fixture's fields
are unchanged. -/
theorem WithManifests_adds_each_entry (d : FixtureDeps σ S E U B Srv Cl Ca Src H)
    (f : EnvTestFixture S E U B Srv T) (files : List (String × String)) (w : σ) :
    (EnvTestFixture.WithManifests d f files w).fixture = f ∧
    (∀ c ∈ (EnvTestFixture.WithManifests d f files w).calls, ∃ name content res,
      (name, content) ∈ files ∧
      c = FixtureCall.addSource f.Env f.P (d.newMemSource name content) res) ∧
    (((EnvTestFixture.WithManifests d f files w).result = TestResult.returned f ∧
      (EnvTestFixture.WithManifests d f files w).calls = files.map (fun nc =>
        FixtureCall.addSource f.Env f.P (d.newMemSource nc.1 nc.2) none)) ∨
    (∃ n name content e, files[n]? = some (name, content) ∧
      (EnvTestFixture.WithManifests d f files w).result = TestResult.failNow e ∧
      (EnvTestFixture.WithManifests d f files w).calls =
        (files.take n).map (fun nc =>
          FixtureCall.addSource f.Env f.P (d.newMemSource nc.1 nc.2) none) ++
        [FixtureCall.addSource f.Env f.P (d.newMemSource name content) (some e)])) := by
  rcases hk : withManifestsLoop d f files w with ⟨r, calls, w1⟩
  have hl := withManifestsLoop_cases d f files w
  rw [hk] at hl
  rcases hl with ⟨hr, hc⟩ | ⟨n, name, content, e, hn, hr, hc⟩
  · simp only at hr hc
    subst hr hc
    refine ⟨by simp [EnvTestFixture.WithManifests, hk], ?_,
      Or.inl ⟨by simp [EnvTestFixture.WithManifests, hk],
        by simp [EnvTestFixture.WithManifests, hk]⟩⟩
    intro c hc
    simp only [EnvTestFixture.WithManifests, hk, List.mem_map] at hc
    obtain ⟨nc, hmem, rfl⟩ := hc
    exact ⟨nc.1, nc.2, none, hmem, rfl⟩
  · simp only at hr hc
    subst hr hc
    refine ⟨by simp [EnvTestFixture.WithManifests, hk], ?_,
      Or.inr ⟨n, name, content, e, hn, by simp [EnvTestFixture.WithManifests, hk],
        by simp [EnvTestFixture.WithManifests, hk]⟩⟩
    intro c hc
    simp only [EnvTestFixture.WithManifests, hk, List.mem_append, List.mem_map,
      List.mem_singleton] at hc
    rcases hc with ⟨nc, hmem, rfl⟩ | rfl
    · exact ⟨nc.1, nc.2, none, List.mem_of_mem_take hmem, rfl⟩
    · exact ⟨name, content, some e, List.getElem?_mem hn, rfl⟩


/-- C7 at a concrete input: two manifests, the second of which `AddSource`
rejects: the test stops after the second call. -/
theorem WithManifests_adds_each_entry_witness :
    (EnvTestFixture.WithManifests (exampleFixtureDeps "b.hcl") exampleFixture
      [("a.hcl", "A"), ("b.hcl", "B"), ("c.hcl", "C")] []).fixture = exampleFixture ∧
    (EnvTestFixture.WithManifests (exampleFixtureDeps "b.hcl") exampleFixture
      [("a.hcl", "A"), ("b.hcl", "B"), ("c.hcl", "C")] []).calls =
      [FixtureCall.addSource ("/tmp/env", "/tmp/state") () ("a.hcl", "A") none,
        FixtureCall.addSource ("/tmp/env", "/tmp/state") () ("b.hcl", "B")
          (some (GoError.base "bad manifest"))] :=
  ⟨(WithManifests_adds_each_entry (exampleFixtureDeps "b.hcl") exampleFixture
    [("a.hcl", "A"), ("b.hcl", "B"), ("c.hcl", "C")] []).1, rfl⟩

/-- C8: when `NewEnv` returns an environment, it made four calls:
`ioutil.TempDir`, `ui.NewForTesting`, `hermit.Init` with the new directory and
the state directory `f.State.Root()`, and `hermit.OpenEnv` with the new
directory and `f.State`, whose result it returns; `state.Open` is not called.
For a fixture that `NewEnvTestFixture` returned, `f.State` is the state that
its `state.Open` returned, the one its `hermit.OpenEnv` opened `f.Env` with,
opened on the state directory given to its `hermit.Init`. -/
theorem NewEnv_uses_fixture_state (d : FixtureDeps σ S E U B Srv Cl Ca Src H)
    (f : EnvTestFixture S E U B Srv T) (w : σ) (env : E)
    (h : (EnvTestFixture.NewEnv d f w).result = TestResult.returned env) :
    (∃ envDir log buf, (EnvTestFixture.NewEnv d f w).calls =
      [FixtureCall.tempDir "" "" (Except.ok envDir), FixtureCall.newForTesting log buf,
        FixtureCall.hermitInit log envDir "" (d.stateRoot f.State) none,
        FixtureCall.openEnv envDir f.State (d.serverClient f.Server) (Except.ok env)]) ∧
    (∀ (handler : H) (w0 : σ),
      (NewEnvTestFixture d f.t handler w0).result = TestResult.returned f →
      ∃ envDir0 stateDir cache,
        FixtureCall.hermitInit f.P envDir0 "" stateDir none ∈
          (NewEnvTestFixture d f.t handler w0).calls ∧
        FixtureCall.stateOpen stateDir cache (Except.ok f.State) ∈
          (NewEnvTestFixture d f.t handler w0).calls ∧
        FixtureCall.openEnv envDir0 f.State (d.serverClient f.Server) (Except.ok f.Env) ∈
          (NewEnvTestFixture d f.t handler w0).calls) := by
  refine ⟨NewEnv_returned d f w env h, ?_⟩
  intro handler w0 hf
  obtain ⟨envDir, stateDir, log, buf, server, cache, sta, env0, hfx, hcalls⟩ :=
    NewEnvTestFixture_returned d f.t handler w0 f hf
  refine ⟨envDir, stateDir, cache, ?_, ?_, ?_⟩ <;> rw [hcalls, hfx] <;> simp

/-- C8 at a concrete input: the example fixture, with `/tmp/env2` the next
temporary directory. -/
theorem NewEnv_uses_fixture_state_witness :
    (∃ envDir log buf,
      (EnvTestFixture.NewEnv (exampleFixtureDeps "") exampleFixture ["/tmp/env2"]).calls =
      [FixtureCall.tempDir "" "" (Except.ok envDir), FixtureCall.newForTesting log buf,
        FixtureCall.hermitInit log envDir ""
          ((exampleFixtureDeps "").stateRoot exampleFixture.State) none,
        FixtureCall.openEnv envDir exampleFixture.State
          ((exampleFixtureDeps "").serverClient exampleFixture.Server)
          (Except.ok ("/tmp/env2", "/tmp/state"))]) ∧
    (∀ (handler : Unit) (w0 : List String),
      (NewEnvTestFixture (exampleFixtureDeps "") exampleFixture.t handler w0).result =
        TestResult.returned exampleFixture →
      ∃ envDir0 stateDir cache,
        FixtureCall.hermitInit exampleFixture.P envDir0 "" stateDir none ∈
          (NewEnvTestFixture (exampleFixtureDeps "") exampleFixture.t handler w0).calls ∧
        FixtureCall.stateOpen stateDir cache (Except.ok exampleFixture.State) ∈
          (NewEnvTestFixture (exampleFixtureDeps "") exampleFixture.t handler w0).calls ∧
        FixtureCall.openEnv envDir0 exampleFixture.State
            ((exampleFixtureDeps "").serverClient exampleFixture.Server)
            (Except.ok exampleFixture.Env) ∈
          (NewEnvTestFixture (exampleFixtureDeps "") exampleFixture.t handler w0).calls) :=
  NewEnv_uses_fixture_state (exampleFixtureDeps "") exampleFixture ["/tmp/env2"]
    ("/tmp/env2", "/tmp/state") rfl

/-- The example fixture is what `NewEnvTestFixture` returns in the example
world. -/
theorem exampleFixture_made :
    (NewEnvTestFixture (exampleFixtureDeps "") () () ["/tmp/env", "/tmp/state"]).result =
      TestResult.returned exampleFixture :=
  rfl

/-- C10: `NewEnv` leaves the fixture's `EnvDirs` as they were (for a fixture
that `NewEnvTestFixture` returned: the one directory that its first
`ioutil.TempDir` created), so after a `NewEnv` the directories that `Clean`
hands to `os.RemoveAll` are `EnvDirs` followed by the root of the state; and,
`ioutil.TempDir` returning a directory that is none of these, the directory
that `NewEnv` created is not among the directories that `Clean` removes. -/
theorem NewEnv_dir_not_cleaned (d : FixtureDeps σ S E U B Srv Cl Ca Src H)
    (f : EnvTestFixture S E U B Srv T) (w w' : σ)
    (hfresh : ∀ dir, (d.tempDir "" "" w).1 = Except.ok dir →
      dir ∉ f.EnvDirs ∧ dir ≠ d.stateRoot f.State) :
    (EnvTestFixture.NewEnv d f w).fixture.EnvDirs = f.EnvDirs ∧
    removedDirs (EnvTestFixture.Clean d (EnvTestFixture.NewEnv d f w).fixture w').calls =
      f.EnvDirs ++ [d.stateRoot f.State] ∧
    (∀ envDir, (EnvTestFixture.NewEnv d f w).calls.head? =
        some (FixtureCall.tempDir "" "" (Except.ok envDir)) →
      envDir ∉
        removedDirs (EnvTestFixture.Clean d (EnvTestFixture.NewEnv d f w).fixture w').calls) ∧
    (∀ (handler : H) (w0 : σ),
      (NewEnvTestFixture d f.t handler w0).result = TestResult.returned f →
      ∃ dir0, (NewEnvTestFixture d f.t handler w0).calls.head? =
          some (FixtureCall.tempDir "" "" (Except.ok dir0)) ∧
        (EnvTestFixture.NewEnv d f w).fixture.EnvDirs = [dir0]) := by
  rw [NewEnv_fixture, Clean_removed, NewEnv_first_call]
  refine ⟨rfl, rfl, ?_, ?_⟩
  · intro envDir henv
    simp only [Option.some.injEq, FixtureCall.tempDir.injEq, true_and] at henv
    have hf := hfresh envDir henv
    simp [hf.1, hf.2]
  · intro handler w0 hf
    obtain ⟨dir0, stateDir, log, buf, server, cache, sta, env0, hfx, hcalls⟩ :=
      NewEnvTestFixture_returned d f.t handler w0 f hf
    exact ⟨dir0, by rw [hcalls]; rfl, by rw [hfx]⟩

/-- C10 at a concrete input: the example fixture, with `/tmp/env2` the next
temporary directory, which is neither `/tmp/env` nor `/tmp/state`. -/
theorem NewEnv_dir_not_cleaned_witness :
    (EnvTestFixture.NewEnv (exampleFixtureDeps "") exampleFixture ["/tmp/env2"]).fixture.EnvDirs
      = ["/tmp/env"] ∧
    removedDirs (EnvTestFixture.Clean (exampleFixtureDeps "")
      (EnvTestFixture.NewEnv (exampleFixtureDeps "") exampleFixture ["/tmp/env2"]).fixture
      []).calls = ["/tmp/env", "/tmp/state"] ∧
    "/tmp/env2" ∉ removedDirs (EnvTestFixture.Clean (exampleFixtureDeps "")
      (EnvTestFixture.NewEnv (exampleFixtureDeps "") exampleFixture ["/tmp/env2"]).fixture
      []).calls :=
  ⟨(NewEnv_dir_not_cleaned (exampleFixtureDeps "") exampleFixture ["/tmp/env2"] []
      (by intro dir h; cases h; decide)).1,
    (NewEnv_dir_not_cleaned (exampleFixtureDeps "") exampleFixture ["/tmp/env2"] []
      (by intro dir h; cases h; decide)).2.1,
    (NewEnv_dir_not_cleaned (exampleFixtureDeps "") exampleFixture ["/tmp/env2"] []
      (by intro dir h; cases h; decide)).2.2.1 "/tmp/env2" rfl⟩

end FixtureTheorems

end Hermit
